import Mathlib

/-!
Shallow embedding of the AsthmaCare client logic
(`src/scripts/utils/api.js`, `src/scripts/auth/auth.js`) in Lean 4.

Conventions used throughout:
* JavaScript timestamps are modelled as integer milliseconds since the
  epoch (`Int`), and the wall clock (`new Date()`) is passed explicitly
  as a `now : Int` argument.
* JavaScript real-number comparisons of the form
  `(now - t) / K <= c` (with a positive constant `K`) are embedded as
  the exact integer comparison `now - t <= c * K`, which is equivalent
  over the reals.
* Fallible paths (`throw` / `catch`) are modelled with `Except String`,
  and the external store / network calls are passed in as explicit
  arguments describing their outcome.
-/

/-! ## Health Scoring Engine (`calculateAsthmaControlScore`) -/

/-- A symptom row as consumed by `calculateAsthmaControlScore`:
`severity` (an integer, 1-5 in practice) and `recorded_at`
(epoch milliseconds). -/
structure SymptomEntry where
  severity : Int
  recorded_at : Int
deriving DecidableEq

/-- A medication row (`medications` argument of
`calculateAsthmaControlScore`); the function never reads it. -/
structure MedicationEvent where
  medication_name : String
  taken_at : Int
deriving DecidableEq

/-- Milliseconds per day, the `1000 * 60 * 60 * 24` of the source. -/
def msPerDay : Int := 1000 * 60 * 60 * 24

/-- The 7-day filter of `calculateAsthmaControlScore`:
`daysDiff = (now - recorded_at) / msPerDay; daysDiff <= 7`,
embedded exactly as `now - recorded_at <= 7 * msPerDay`. -/
def isRecentSymptom (now : Int) (s : SymptomEntry) : Bool :=
  now - s.recorded_at ≤ 7 * msPerDay

/-- The result shape of `calculateAsthmaControlScore`. -/
structure ControlResult where
  score : Int
  level : String
  recommendations : List String
deriving DecidableEq

/-- Recommendations returned on the empty-symptoms early return. -/
def emptyInputRecs : List String :=
  ["Continue current management plan",
   "Regular check-ups with healthcare provider"]

/-- Recommendations of the `totalScore >= 80` branch. -/
def wellControlledRecs : List String :=
  ["Continue current management plan",
   "Monitor for any changes in symptoms",
   "Regular check-ups with healthcare provider"]

/-- Recommendations of the `totalScore >= 60` branch. -/
def partlyControlledRecs : List String :=
  ["Review medication adherence",
   "Identify and avoid triggers",
   "Consider adjusting treatment plan with doctor"]

/-- Recommendations of the final (poorly controlled) branch. -/
def poorlyControlledRecs : List String :=
  ["Schedule urgent appointment with healthcare provider",
   "Review and update asthma action plan",
   "Ensure rescue medications are accessible",
   "Consider step-up therapy"]

/-- Embedding of `calculateAsthmaControlScore(symptoms, medications)`
from `src/scripts/utils/api.js`: early return on empty input, filter to
the last 7 days, deduct `severity * 5` per filtered entry from 100,
classify on the unclamped total, and clamp the reported score at 0. -/
def calculateAsthmaControlScore (now : Int) (symptoms : List SymptomEntry)
    (medications : List MedicationEvent) : ControlResult :=
  if symptoms.isEmpty then
    { score := 100, level := "Well Controlled", recommendations := emptyInputRecs }
  else
    let recentSymptoms := symptoms.filter (isRecentSymptom now)
    let totalScore : Int := recentSymptoms.foldl (fun acc s => acc - s.severity * 5) 100
    if totalScore ≥ 80 then
      { score := max 0 totalScore, level := "Well Controlled",
        recommendations := wellControlledRecs }
    else if totalScore ≥ 60 then
      { score := max 0 totalScore, level := "Partly Controlled",
        recommendations := partlyControlledRecs }
    else
      { score := max 0 totalScore, level := "Poorly Controlled",
        recommendations := poorlyControlledRecs }

/-! ## Freshness Cache (`checkAirQuality`, `isDataFresh`) -/

/-- A row of the `air_quality_cache` table as seen by `checkAirQuality`:
the opaque `data` payload and the `created_at` timestamp
(epoch milliseconds). -/
structure CacheEntry (α : Type) where
  data : α
  created_at : Int
deriving DecidableEq

/-- Embedding of `isDataFresh(timestamp, minutes)`:
`diffMinutes = (now - timestamp) / (1000 * 60); diffMinutes < minutes`,
embedded exactly as `now - timestamp < minutes * 60000`. -/
def isDataFresh (now : Int) (timestamp : Int) (minutes : Int) : Bool :=
  now - timestamp < minutes * (1000 * 60)

/-- Outcome of one `checkAirQuality` call: the value returned (or the
error propagated), together with whether the fetch path was invoked. -/
structure AirQualityOutcome (α : Type) where
  result : Except String α
  fetchInvoked : Bool

/-- Embedding of `checkAirQuality(location)`. The external pieces are
passed explicitly: `cached` is what `getCachedAirQuality` yields for the
normalized key (the most recent row, or `none`), and `fetchResult` is
the outcome of the network fetch. If a cached row exists and
`isDataFresh(created_at, 30)` holds, its payload is returned without
fetching; otherwise the fetch runs, and on fetch failure the `catch`
block falls back to the same cached row regardless of staleness,
rethrowing only when no cached row exists. The fire-and-forget cache
insert of a fresh payload does not affect the returned value. -/
def checkAirQuality {α : Type} (now : Int) (cached : Option (CacheEntry α))
    (fetchResult : Except String α) : AirQualityOutcome α :=
  match cached with
  | some entry =>
    if isDataFresh now entry.created_at 30 then
      { result := Except.ok entry.data, fetchInvoked := false }
    else
      match fetchResult with
      | Except.ok fresh => { result := Except.ok fresh, fetchInvoked := true }
      | Except.error _ => { result := Except.ok entry.data, fetchInvoked := true }
  | none =>
    match fetchResult with
    | Except.ok fresh => { result := Except.ok fresh, fetchInvoked := true }
    | Except.error e => { result := Except.error e, fetchInvoked := true }

/-! ## Mock Conversational Responder (`simulateAIResponse`) -/

/-- An apostrophe character, written via its code point. -/
def apostrophe : Char := Char.ofNat 39

/-- An apostrophe as a one-character string. -/
def aposS : String := String.singleton apostrophe

/-- Lower-casing as performed by `message.toLowerCase()` on the ASCII
keywords and messages this code handles: every character is mapped
through `Char.toLower`. -/
def toLowerCase (s : String) : String := String.mk (s.data.map Char.toLower)

/-- Decides whether `sub` matches `l` position by position from its
head (helper for substring search). -/
def matchesAt : List Char → List Char → Bool
  | [], _ => true
  | _ :: _, [] => false
  | a :: as, b :: bs => a == b && matchesAt as bs

/-- Decides whether `sub` occurs as a contiguous run anywhere in the
second list (helper for substring search). -/
def containsSub (sub : List Char) : List Char → Bool
  | [] => matchesAt sub []
  | x :: xs => matchesAt sub (x :: xs) || containsSub sub xs

/-- Embedding of JavaScript `s.includes(sub)`: substring membership. -/
def stringIncludes (s : String) (sub : String) : Bool :=
  containsSub sub.data s.data

/-- The `'can\'t breathe'` keyword of the emergency group. -/
def cantBreathe : String := "can" ++ aposS ++ "t breathe"

/-- Fixed response of the emergency keyword group. -/
def emergencyResponse : String :=
  "🚨 This sounds like a medical emergency. Please call 911 or your local emergency services immediately. Don"
    ++ aposS ++ "t wait - severe breathing difficulties require immediate medical attention."

/-- Fixed response of the inhaler / medication keyword group. -/
def inhalerResponse : String :=
  "For inhaler and medication questions, it" ++ aposS
    ++ "s important to follow your doctor" ++ aposS
    ++ "s prescribed instructions. If you" ++ aposS
    ++ "re experiencing issues with your current medication or need adjustments, please contact your healthcare provider. Never stop or change medications without medical guidance."

/-- Fixed response of the trigger / allergen keyword group. -/
def triggerResponse : String :=
  "Common asthma triggers include dust mites, pet dander, pollen, smoke, cold air, and strong odors. Keeping a trigger diary can help identify your specific triggers. Consider using air purifiers, regular cleaning, and avoiding known irritants when possible."

/-- Fixed response of the exercise / activity keyword group. -/
def exerciseResponse : String :=
  "Exercise-induced asthma is manageable! Warm up gradually, consider using your rescue inhaler before exercise if recommended by your doctor, and choose activities like swimming which are often better tolerated. Always have your rescue inhaler available during physical activity."

/-- Fixed response of the air quality / pollution keyword group. -/
def airQualityResponse : String :=
  "Poor air quality can definitely trigger asthma symptoms. Check daily air quality reports, limit outdoor activities on high pollution days, keep windows closed during poor air quality periods, and consider using air purifiers indoors. Our air quality monitor can help you stay informed!"

/-- Fixed response of the stress / anxiety keyword group. -/
def stressResponse : String :=
  "Stress and anxiety can indeed trigger asthma symptoms. Practice relaxation techniques like deep breathing exercises, meditation, or yoga. Maintaining a regular sleep schedule and staying connected with support networks also helps. If stress is a major trigger, consider speaking with a counselor."

/-- Fixed response of the diet / food keyword group. -/
def dietResponse : String :=
  "While food allergies can trigger asthma in some people, maintaining a healthy diet supports overall respiratory health. Foods rich in omega-3 fatty acids, antioxidants, and vitamin D may be beneficial. If you suspect food triggers, keep a food diary and discuss with your healthcare provider."

/-- Fixed default response when no keyword group matches. -/
def defaultResponse : String :=
  "Thank you for your question about asthma management. While I can provide general information, it" ++ aposS
    ++ "s important to work closely with your healthcare provider for personalized advice. Is there a specific aspect of asthma management you" ++ aposS
    ++ "d like to know more about? I" ++ aposS
    ++ "m here to help with general guidance and support."

/-- Embedding of `simulateAIResponse(message)` minus the artificial
random delay (pure timing, no effect on the returned string): lower-case
the message, then test the keyword groups in source order, first match
wins, falling through to the default response. -/
def simulateAIResponse (message : String) : String :=
  let lowerMessage := toLowerCase message
  if stringIncludes lowerMessage ("emergency") || stringIncludes lowerMessage cantBreathe
      || stringIncludes lowerMessage ("severe") then
    emergencyResponse
  else if stringIncludes lowerMessage ("inhaler") || stringIncludes lowerMessage ("medication") then
    inhalerResponse
  else if stringIncludes lowerMessage ("trigger") || stringIncludes lowerMessage ("allergen") then
    triggerResponse
  else if stringIncludes lowerMessage ("exercise") || stringIncludes lowerMessage ("activity") then
    exerciseResponse
  else if stringIncludes lowerMessage ("air quality") || stringIncludes lowerMessage ("pollution") then
    airQualityResponse
  else if stringIncludes lowerMessage ("stress") || stringIncludes lowerMessage ("anxiety") then
    stressResponse
  else if stringIncludes lowerMessage ("diet") || stringIncludes lowerMessage ("food") then
    dietResponse
  else
    defaultResponse

/-! ## Chat wrapper (`sendChatMessage`) -/

/-- One turn of the conversation-context array passed to
`sendChatMessage`. -/
structure ChatTurn where
  role : String
  content : String
deriving DecidableEq

/-- The fixed system prompt assembled by `sendChatMessage`. -/
def systemPrompt : String :=
  "You are a helpful AI assistant specializing in asthma and respiratory health. \n        Provide accurate, helpful information while always recommending users consult healthcare professionals for medical advice. \n        Keep responses conversational and supportive. If asked about emergencies, always advise calling emergency services."

/-- Embedding of `sendChatMessage(message, context)`: it assembles the
`messages` array (system prompt, then the caller-supplied context, then
the user message) but then obtains the response solely from
`simulateAIResponse(message)`; the chat-history insert is a
failure-swallowing side effect with no influence on the returned
string. -/
def sendChatMessage (message : String) (context : List ChatTurn) : String :=
  let messages : List ChatTurn :=
    { role := "system", content := systemPrompt }
      :: (context ++ [{ role := "user", content := message }])
  simulateAIResponse message

/-! ## Auth Session Façade (`AuthManager`) -/

/-- The mutable fields of `AuthManager` relevant to observer
registration and auth-state transitions; callbacks are identified by
opaque ids. -/
structure AuthManagerState (U : Type) where
  currentUser : Option U
  authCallbacks : List Nat
  initialized : Bool

/-- A single observer invocation `(callbackId, user, eventName)`. -/
def CallbackCall (U : Type) : Type := Nat × Option U × String

/-- Embedding of `AuthManager.onAuthStateChange(callback)`: push the
callback, then, if `init` has completed, invoke it immediately with the
current user tagged `INITIAL_SESSION`. Returns the new state and the
invocations performed by this call. -/
def onAuthStateChange {U : Type} (st : AuthManagerState U) (cb : Nat) :
    AuthManagerState U × List (CallbackCall U) :=
  ({ st with authCallbacks := st.authCallbacks ++ [cb] },
   if st.initialized then [(cb, st.currentUser, "INITIAL_SESSION")] else [])

/-- Embedding of the `supabase.auth.onAuthStateChange` handler installed
by `AuthManager.init`: overwrite `currentUser` with the session user of
the event, then invoke every registered callback with
`(currentUser, event)`. Returns the new state and the invocations. -/
def handleAuthStateEvent {U : Type} (st : AuthManagerState U) (event : String)
    (sessionUser : Option U) : AuthManagerState U × List (CallbackCall U) :=
  let st2 := { st with currentUser := sessionUser }
  (st2, st2.authCallbacks.map (fun cb => (cb, sessionUser, event)))

/-! ## Profile/Record CRUD Layer

Each wrapper in `api.js` first resolves the current user via
`supabase.auth.getUser()` and throws `'User not authenticated'` when it
is absent; the store interaction of the authenticated branch is passed
in as an explicit `Except`-valued argument. `storeAccessed` records
whether the owner-scoped store call was reached. -/

/-- Outcome of one CRUD-layer call: the `{data, error}`-shaped result
and whether the owner-scoped store was reached. -/
structure OpOutcome (α : Type) where
  result : Except String α
  storeAccessed : Bool

/-- The error message thrown by every unauthenticated CRUD wrapper. -/
def unauthenticatedMsg : String := "User not authenticated"

/-- Embedding of the shared shape of the authenticated-owner wrappers
(`logSymptom`, `bookAppointment`, `logMedicationUsage`, ...): without a
user the call fails with `'User not authenticated'` before any store
access; with a user it performs the store call and surfaces its result. -/
def ownerScopedOp {α : Type} (user : Option Nat) (storeResult : Except String α) :
    OpOutcome α :=
  match user with
  | none => { result := Except.error unauthenticatedMsg, storeAccessed := false }
  | some _ => { result := storeResult, storeAccessed := true }

/-- Embedding of `logSymptom(symptomData)`: unauthenticated calls fail
with `'User not authenticated'` (caught and returned as the `error`
field) without touching the store. -/
def logSymptom (user : Option Nat) (insertResult : Except String Nat) : OpOutcome Nat :=
  ownerScopedOp user insertResult

/-- Embedding of `bookAppointment(appointmentData)`. -/
def bookAppointment (user : Option Nat) (insertResult : Except String Nat) : OpOutcome Nat :=
  ownerScopedOp user insertResult

/-- Embedding of `logMedicationUsage(medicationData)`. -/
def logMedicationUsage (user : Option Nat) (insertResult : Except String Nat) : OpOutcome Nat :=
  ownerScopedOp user insertResult

/-- Embedding of `addEmergencyContact(contactData)`. -/
def addEmergencyContact (user : Option Nat) (insertResult : Except String Nat) : OpOutcome Nat :=
  ownerScopedOp user insertResult

/-- Embedding of `cancelAppointment(appointmentId)`. -/
def cancelAppointment (user : Option Nat) (updateResult : Except String Nat) : OpOutcome Nat :=
  ownerScopedOp user updateResult

/-- Embedding of `rescheduleAppointment(appointmentId, newDateTime)`. -/
def rescheduleAppointment (user : Option Nat) (updateResult : Except String Nat) : OpOutcome Nat :=
  ownerScopedOp user updateResult

/-- Embedding of `uploadHealthReport(file, metadata)`. -/
def uploadHealthReport (user : Option Nat) (uploadResult : Except String Nat) : OpOutcome Nat :=
  ownerScopedOp user uploadResult

/-- Embedding of `deleteHealthReport(reportId)`. -/
def deleteHealthReport (user : Option Nat) (deleteResult : Except String Nat) : OpOutcome Nat :=
  ownerScopedOp user deleteResult

/-- Embedding of `getHealthReports(filters)`. -/
def getHealthReports (user : Option Nat) (queryResult : Except String (List Nat)) :
    OpOutcome (List Nat) :=
  ownerScopedOp user queryResult

/-- Embedding of `getAppointments(filters)`. -/
def getAppointments (user : Option Nat) (queryResult : Except String (List Nat)) :
    OpOutcome (List Nat) :=
  ownerScopedOp user queryResult

/-- Embedding of `getSymptomHistory(filters)`. -/
def getSymptomHistory (user : Option Nat) (queryResult : Except String (List Nat)) :
    OpOutcome (List Nat) :=
  ownerScopedOp user queryResult

/-- Embedding of `getMedicationHistory(filters)`. -/
def getMedicationHistory (user : Option Nat) (queryResult : Except String (List Nat)) :
    OpOutcome (List Nat) :=
  ownerScopedOp user queryResult

/-- Embedding of `getEmergencyContacts()`. -/
def getEmergencyContacts (user : Option Nat) (queryResult : Except String (List Nat)) :
    OpOutcome (List Nat) :=
  ownerScopedOp user queryResult

/-- Embedding of `exportUserData()`. -/
def exportUserData (user : Option Nat) (queryResult : Except String (List Nat)) :
    OpOutcome (List Nat) :=
  ownerScopedOp user queryResult

/-- Embedding of `getChatHistory(limit)`: unlike every other wrapper, a
missing user makes it return an empty array (`return []`) with no error
and no store access; on the authenticated branch a query failure is also
swallowed into `[]` by the surrounding `catch`. -/
def getChatHistory (user : Option Nat) (queryResult : Except String (List Nat)) :
    OpOutcome (List Nat) :=
  match user with
  | none => { result := Except.ok [], storeAccessed := false }
  | some _ =>
    match queryResult with
    | Except.ok rows => { result := Except.ok rows, storeAccessed := true }
    | Except.error _ => { result := Except.ok [], storeAccessed := true }

/-! ## Helper lemmas -/

/-- The point-deduction loop of `calculateAsthmaControlScore` computes
the start value minus the sum of `severity * 5` over the list. -/
theorem foldl_severity_deduct (l : List SymptomEntry) (a : Int) :
    l.foldl (fun acc s => acc - s.severity * 5) a
      = a - (l.map (fun s => s.severity * 5)).sum := by
  induction l generalizing a with
  | nil => simp
  | cons x xs ih => simp [ih]; ring

/-! ## Claims -/

/-- C9: the response of `sendChatMessage` depends only on the message;
the conversation-context argument never alters keyword matching or the
chosen response. -/
theorem sendChatMessage_ignores_context (message : String)
    (c1 c2 : List ChatTurn) :
    sendChatMessage message c1 = sendChatMessage message c2 := rfl

/-- C10: `calculateAsthmaControlScore` returns the same result for any
two values of its `medications` argument; score, level and
recommendations depend only on the symptoms and the call time. -/
theorem calculateAsthmaControlScore_ignores_medications (now : Int)
    (symptoms : List SymptomEntry) (m1 m2 : List MedicationEvent) :
    calculateAsthmaControlScore now symptoms m1
      = calculateAsthmaControlScore now symptoms m2 := rfl

/-- C3: when the fetch fails, `checkAirQuality` returns the cached
payload if a cached entry of any age exists, and propagates the failure
when no cached entry exists. -/
theorem checkAirQuality_fallback (α : Type) (now : Int) (e : CacheEntry α)
    (err : String) :
    (checkAirQuality now (some e) (Except.error err)).result = Except.ok e.data
    ∧ checkAirQuality now (none : Option (CacheEntry α)) (Except.error err)
        = ⟨Except.error err, true⟩ := by
  constructor
  · rcases Bool.eq_false_or_eq_true (isDataFresh now e.created_at 30) with hf | hf <;>
      simp [checkAirQuality, hf]
  · rfl

/-- C6: the score of `calculateAsthmaControlScore` is never negative,
and ten severity-5 entries inside the 7-day window clamp to 0. -/
theorem calculateAsthmaControlScore_nonneg :
    (∀ (now : Int) (symptoms : List SymptomEntry)
        (medications : List MedicationEvent),
        0 ≤ (calculateAsthmaControlScore now symptoms medications).score)
    ∧ (calculateAsthmaControlScore 0 (List.replicate 10 ⟨5, 0⟩) []).score = 0 := by
  constructor
  · intro now symptoms medications
    unfold calculateAsthmaControlScore
    split
    · norm_num
    · dsimp only
      split
      · exact le_max_left 0 _
      · split
        · exact le_max_left 0 _
        · exact le_max_left 0 _
  · decide

/-- Unfolding lemma for `checkAirQuality` on a present cache entry. -/
theorem checkAirQuality_some (α : Type) (now : Int) (e : CacheEntry α)
    (fetch : Except String α) :
    checkAirQuality now (some e) fetch =
      if isDataFresh now e.created_at 30 then
        { result := Except.ok e.data, fetchInvoked := false }
      else
        match fetch with
        | Except.ok fresh => { result := Except.ok fresh, fetchInvoked := true }
        | Except.error _ => { result := Except.ok e.data, fetchInvoked := true } := rfl

/-- C2: a cached entry is served without invoking the fetch path exactly
when `now - created_at` is strictly below the 30-minute window; an entry
stored at `T` is served from cache at `T + 29min` and causes a fetch at
`T + 31min`. -/
theorem checkAirQuality_freshness_window (α : Type) (T now : Int)
    (payload : α) (e : CacheEntry α) (fetch : Except String α) :
    (checkAirQuality now (some e) fetch = ⟨Except.ok e.data, false⟩
       ↔ now - e.created_at < 30 * (1000 * 60))
    ∧ checkAirQuality (T + 29 * (1000 * 60)) (some ⟨payload, T⟩) fetch
        = ⟨Except.ok payload, false⟩
    ∧ (checkAirQuality (T + 31 * (1000 * 60)) (some ⟨payload, T⟩) fetch).fetchInvoked
        = true := by
  refine ⟨?_, ?_, ?_⟩
  · by_cases hf : now - e.created_at < 30 * (1000 * 60)
    · have hb : isDataFresh now e.created_at 30 = true := by
        simp only [isDataFresh, decide_eq_true_eq]
        omega
      rw [checkAirQuality_some, if_pos hb]
      exact ⟨fun _ => hf, fun _ => rfl⟩
    · have hb : ¬ isDataFresh now e.created_at 30 = true := by
        simp only [isDataFresh, decide_eq_true_eq]
        omega
      rw [checkAirQuality_some, if_neg hb]
      rcases fetch with d | err <;>
        refine ⟨fun h => ?_, fun h => absurd h hf⟩ <;>
        simpa using congrArg AirQualityOutcome.fetchInvoked h
  · have hb : isDataFresh (T + 29 * (1000 * 60)) T 30 = true := by
      simp only [isDataFresh, decide_eq_true_eq]
      omega
    rw [checkAirQuality_some, if_pos hb]
  · have hb : ¬ isDataFresh (T + 31 * (1000 * 60)) T 30 = true := by
      simp only [isDataFresh, decide_eq_true_eq]
      omega
    rw [checkAirQuality_some, if_neg hb]
    rcases fetch with d | err <;> rfl

/-- Unfolding lemma for `calculateAsthmaControlScore` on a non-empty
symptom list, with the deduction loop rewritten as `100 - Σ`. -/
theorem calculateAsthmaControlScore_ne_nil (now : Int)
    (symptoms : List SymptomEntry) (medications : List MedicationEvent)
    (h : symptoms ≠ []) :
    calculateAsthmaControlScore now symptoms medications =
      (if 100 - ((symptoms.filter (isRecentSymptom now)).map
            (fun s => s.severity * 5)).sum ≥ 80 then
        { score := max 0 (100 - ((symptoms.filter (isRecentSymptom now)).map
            (fun s => s.severity * 5)).sum),
          level := "Well Controlled", recommendations := wellControlledRecs }
      else if 100 - ((symptoms.filter (isRecentSymptom now)).map
            (fun s => s.severity * 5)).sum ≥ 60 then
        { score := max 0 (100 - ((symptoms.filter (isRecentSymptom now)).map
            (fun s => s.severity * 5)).sum),
          level := "Partly Controlled", recommendations := partlyControlledRecs }
      else
        { score := max 0 (100 - ((symptoms.filter (isRecentSymptom now)).map
            (fun s => s.severity * 5)).sum),
          level := "Poorly Controlled", recommendations := poorlyControlledRecs }) := by
  have hne : symptoms.isEmpty = false := by simp [List.isEmpty_iff, h]
  unfold calculateAsthmaControlScore
  rw [hne]
  simp only [Bool.false_eq_true, if_false]
  rw [foldl_severity_deduct]

/-- C1: on every non-empty symptom list the returned score is 100 minus
`severity * 5` summed over the entries inside the 7-day window (clamped
at 0), the level is classified from the returned score with the 80/60
thresholds, a single severity-5 entry recorded now yields
`(75, Partly Controlled)`, and severity-5 plus severity-4 entries inside
the window yield `(55, Poorly Controlled)`. -/
theorem calculateAsthmaControlScore_spec (now : Int)
    (symptoms : List SymptomEntry) (medications : List MedicationEvent)
    (h : symptoms ≠ []) :
    (calculateAsthmaControlScore now symptoms medications).score =
        max 0 (100 - ((symptoms.filter (isRecentSymptom now)).map
          (fun s => s.severity * 5)).sum)
    ∧ (calculateAsthmaControlScore now symptoms medications).level =
        (if (calculateAsthmaControlScore now symptoms medications).score ≥ 80 then
          "Well Controlled"
        else if (calculateAsthmaControlScore now symptoms medications).score ≥ 60 then
          "Partly Controlled"
        else "Poorly Controlled")
    ∧ calculateAsthmaControlScore now [⟨5, now⟩] medications =
        ⟨75, "Partly Controlled", partlyControlledRecs⟩
    ∧ calculateAsthmaControlScore now [⟨5, now⟩, ⟨4, now⟩] medications =
        ⟨55, "Poorly Controlled", poorlyControlledRecs⟩ := by
  have hrec : ∀ sev : Int, isRecentSymptom now ⟨sev, now⟩ = true := by
    intro sev
    simp only [isRecentSymptom, msPerDay, decide_eq_true_eq]
    omega
  refine ⟨?_, ?_, ?_, ?_⟩
  · rw [calculateAsthmaControlScore_ne_nil now symptoms medications h]
    split
    · rfl
    · split
      · rfl
      · rfl
  · rw [calculateAsthmaControlScore_ne_nil now symptoms medications h]
    set S : Int := 100 - ((symptoms.filter (isRecentSymptom now)).map
      (fun s => s.severity * 5)).sum with hS
    by_cases h80 : S ≥ 80
    · rw [if_pos h80]
      dsimp only
      have hge : max 0 S ≥ 80 := le_trans h80 (le_max_right 0 S)
      rw [if_pos hge]
    · rw [if_neg h80]
      by_cases h60 : S ≥ 60
      · rw [if_pos h60]
        dsimp only
        have hmax : max 0 S = S := max_eq_right (by omega)
        rw [hmax, if_neg h80, if_pos h60]
      · rw [if_neg h60]
        dsimp only
        have hmax : max 0 S < 60 := by
          rcases le_total 0 S with h0 | h0
          · rw [max_eq_right h0]; omega
          · rw [max_eq_left h0]; omega
        rw [if_neg (by omega : ¬ max 0 S ≥ 80), if_neg (by omega : ¬ max 0 S ≥ 60)]
  · rw [calculateAsthmaControlScore_ne_nil now [⟨5, now⟩] medications (by simp)]
    simp [hrec]
  · rw [calculateAsthmaControlScore_ne_nil now [⟨5, now⟩, ⟨4, now⟩] medications (by simp)]
    simp [hrec]

/-- Witness for C1 at the concrete input of a single severity-5 entry
recorded at time 0, queried at time 0. -/
theorem calculateAsthmaControlScore_spec_witness :
    ([(⟨5, 0⟩ : SymptomEntry)] ≠ [])
    ∧ ((calculateAsthmaControlScore 0 [⟨5, 0⟩] []).score =
          max 0 (100 - (([(⟨5, 0⟩ : SymptomEntry)].filter (isRecentSymptom 0)).map
            (fun s => s.severity * 5)).sum)
      ∧ (calculateAsthmaControlScore 0 [⟨5, 0⟩] []).level =
          (if (calculateAsthmaControlScore 0 [⟨5, 0⟩] []).score ≥ 80 then
            "Well Controlled"
          else if (calculateAsthmaControlScore 0 [⟨5, 0⟩] []).score ≥ 60 then
            "Partly Controlled"
          else "Poorly Controlled")
      ∧ calculateAsthmaControlScore 0 [⟨5, 0⟩] [] =
          ⟨75, "Partly Controlled", partlyControlledRecs⟩
      ∧ calculateAsthmaControlScore 0 [⟨5, 0⟩, ⟨4, 0⟩] [] =
          ⟨55, "Poorly Controlled", poorlyControlledRecs⟩) :=
  ⟨by decide, calculateAsthmaControlScore_spec 0 [⟨5, 0⟩] [] (by decide)⟩

/-- Counterexample to C4: with one severity-5 entry recorded at time 0
and the call made 8 days later (so the entry is strictly older than 7
days), the result is not the empty-input result: the code returns the
three-item well-controlled recommendation list of the non-empty branch,
not the two-item empty-input list. -/
theorem calculateAsthmaControlScore_stale_counterexample :
    7 * msPerDay < 8 * msPerDay - (SymptomEntry.mk 5 0).recorded_at
    ∧ calculateAsthmaControlScore (8 * msPerDay) [⟨5, 0⟩] []
        ≠ calculateAsthmaControlScore (8 * msPerDay) [] []
    ∧ (calculateAsthmaControlScore (8 * msPerDay) [⟨5, 0⟩] []).recommendations
        ≠ emptyInputRecs := by
  decide

/-- C4 as amended: on a non-empty symptom list whose entries are all
strictly older than 7 days, `calculateAsthmaControlScore` returns score
100 and level Well Controlled as the empty input does, but with the
three-item well-controlled recommendation list of the non-empty branch
rather than the two-item empty-input list. -/
theorem calculateAsthmaControlScore_all_stale (now : Int)
    (symptoms : List SymptomEntry) (medications : List MedicationEvent)
    (hne : symptoms ≠ [])
    (hold : ∀ s ∈ symptoms, 7 * msPerDay < now - s.recorded_at) :
    calculateAsthmaControlScore now symptoms medications =
      ⟨100, "Well Controlled", wellControlledRecs⟩ := by
  have hfilter : symptoms.filter (isRecentSymptom now) = [] := by
    apply List.filter_eq_nil_iff.mpr
    intro s hs
    simp only [isRecentSymptom, decide_eq_true_eq, not_le]
    exact hold s hs
  rw [calculateAsthmaControlScore_ne_nil now symptoms medications hne, hfilter]
  norm_num

/-- Witness for C4 as amended, at a single severity-5 entry recorded at
time 0 with the call made 8 days later. -/
theorem calculateAsthmaControlScore_all_stale_witness :
    ([(⟨5, 0⟩ : SymptomEntry)] ≠ [])
    ∧ (∀ s ∈ [(⟨5, 0⟩ : SymptomEntry)], 7 * msPerDay < 8 * msPerDay - s.recorded_at)
    ∧ calculateAsthmaControlScore (8 * msPerDay) [⟨5, 0⟩] [] =
        ⟨100, "Well Controlled", wellControlledRecs⟩ :=
  ⟨by decide, by decide,
   calculateAsthmaControlScore_all_stale (8 * msPerDay) [⟨5, 0⟩] []
     (by decide) (by decide)⟩

/-- The ordered keyword-group table of the responder, written from the
specification of the mock responder (groups in order, emergency group
first, each with its fixed response), to be compared with the source
`simulateAIResponse`. -/
def keywordGroups : List (List String × String) :=
  [(["emergency", cantBreathe, "severe"], emergencyResponse),
   (["inhaler", "medication"], inhalerResponse),
   (["trigger", "allergen"], triggerResponse),
   (["exercise", "activity"], exerciseResponse),
   (["air quality", "pollution"], airQualityResponse),
   (["stress", "anxiety"], stressResponse),
   (["diet", "food"], dietResponse)]

/-- First-match-wins evaluation of an ordered keyword-group table, as
the specification describes the responder: the fixed response of the
first group with a keyword occurring as a substring of the lower-cased
message, or the fixed default response when no group matches. -/
def firstMatchResponse : List (List String × String) → String → String
  | [], _ => defaultResponse
  | (kws, resp) :: rest, lowerMessage =>
    if kws.any (fun kw => stringIncludes lowerMessage kw) then resp
    else firstMatchResponse rest lowerMessage

set_option maxRecDepth 40000 in
/-- C5: for every input message, `simulateAIResponse` lower-cases it
and returns exactly the first-match-wins response over the fixed
ordered keyword-group table (emergency group first), falling through to
the fixed default response when no keyword occurs; in particular every
message whose lower-cased form contains the can-not-breathe keyword (so
in any casing and with any surrounding words) yields the
emergency-escalation string, as the concrete mixed-case message does. -/
theorem simulateAIResponse_first_match (msg emsg : String)
    (h : stringIncludes (toLowerCase emsg) cantBreathe = true) :
    simulateAIResponse msg = firstMatchResponse keywordGroups (toLowerCase msg)
    ∧ simulateAIResponse emsg = emergencyResponse
    ∧ simulateAIResponse ("I CAN" ++ aposS ++ "T BREATHE!") = emergencyResponse := by
  refine ⟨?_, ?_, by decide⟩
  · simp only [simulateAIResponse, firstMatchResponse, keywordGroups,
      List.any_cons, List.any_nil, Bool.or_false, Bool.or_assoc]
  · simp [simulateAIResponse, h]

set_option maxRecDepth 40000 in
/-- Witness for C5 at a message matching a middle keyword group and the
mixed-case emergency message. -/
theorem simulateAIResponse_first_match_witness :
    stringIncludes (toLowerCase ("I CAN" ++ aposS ++ "T BREATHE!")) cantBreathe = true
    ∧ (simulateAIResponse ("My Inhaler is empty") =
          firstMatchResponse keywordGroups (toLowerCase ("My Inhaler is empty"))
       ∧ simulateAIResponse ("I CAN" ++ aposS ++ "T BREATHE!") = emergencyResponse
       ∧ simulateAIResponse ("I CAN" ++ aposS ++ "T BREATHE!") = emergencyResponse) :=
  ⟨by decide,
   simulateAIResponse_first_match ("My Inhaler is empty")
     ("I CAN" ++ aposS ++ "T BREATHE!") (by decide)⟩

/-- C7: a callback registered via `onAuthStateChange` after `init` has
completed is invoked immediately, exactly once, with the current user
and the event name INITIAL_SESSION, and is invoked again by the next
auth-state transition. -/
theorem onAuthStateChange_replay (U : Type) (st : AuthManagerState U)
    (cb : Nat) (event : String) (nextUser : Option U)
    (hinit : st.initialized = true) :
    (onAuthStateChange st cb).2 = [(cb, st.currentUser, "INITIAL_SESSION")]
    ∧ (cb, nextUser, event) ∈
        (handleAuthStateEvent (onAuthStateChange st cb).1 event nextUser).2 := by
  constructor
  · simp [onAuthStateChange, hinit]
  · simp only [onAuthStateChange, handleAuthStateEvent, List.mem_map]
    exact ⟨cb, by simp, rfl⟩

/-- Witness for C7 at a concrete initialized state holding user 7 and a
subsequent SIGNED_OUT transition. -/
theorem onAuthStateChange_replay_witness :
    (AuthManagerState.mk (some 7) [] true).initialized = true
    ∧ ((onAuthStateChange (AuthManagerState.mk (some 7) [] true) 3).2 =
          [(3, (AuthManagerState.mk (some 7) [] true).currentUser, "INITIAL_SESSION")]
      ∧ (3, (none : Option Nat), "SIGNED_OUT") ∈
          (handleAuthStateEvent
            (onAuthStateChange (AuthManagerState.mk (some 7) [] true) 3).1
            "SIGNED_OUT" none).2) :=
  ⟨rfl, onAuthStateChange_replay Nat (AuthManagerState.mk (some 7) [] true)
    3 "SIGNED_OUT" none rfl⟩

/-- Counterexample to C8: `getChatHistory` invoked with no resolved
user does not fail with an Unauthenticated condition; it returns an
empty list with no error even when the (never reached) store call would
have failed. -/
theorem getChatHistory_unauthenticated_counterexample :
    (getChatHistory none (Except.error ("db down"))).result = Except.ok []
    ∧ (getChatHistory none (Except.error ("db down"))).result
        ≠ Except.error unauthenticatedMsg
    ∧ (getChatHistory none (Except.error ("db down"))).storeAccessed = false :=
  ⟨rfl, fun h => Except.noConfusion h, rfl⟩

/-- C8 as amended: every operation of the CRUD layer except
`getChatHistory` fails with the Unauthenticated condition and performs
no store access when no current user is resolved; `getChatHistory`
also performs no store access but returns an empty list instead of
failing. -/
theorem crud_layer_unauthenticated (store : Except String Nat)
    (storeL : Except String (List Nat)) :
    logSymptom none store = ⟨Except.error unauthenticatedMsg, false⟩
    ∧ bookAppointment none store = ⟨Except.error unauthenticatedMsg, false⟩
    ∧ logMedicationUsage none store = ⟨Except.error unauthenticatedMsg, false⟩
    ∧ addEmergencyContact none store = ⟨Except.error unauthenticatedMsg, false⟩
    ∧ cancelAppointment none store = ⟨Except.error unauthenticatedMsg, false⟩
    ∧ rescheduleAppointment none store = ⟨Except.error unauthenticatedMsg, false⟩
    ∧ uploadHealthReport none store = ⟨Except.error unauthenticatedMsg, false⟩
    ∧ deleteHealthReport none store = ⟨Except.error unauthenticatedMsg, false⟩
    ∧ getHealthReports none storeL = ⟨Except.error unauthenticatedMsg, false⟩
    ∧ getAppointments none storeL = ⟨Except.error unauthenticatedMsg, false⟩
    ∧ getSymptomHistory none storeL = ⟨Except.error unauthenticatedMsg, false⟩
    ∧ getMedicationHistory none storeL = ⟨Except.error unauthenticatedMsg, false⟩
    ∧ getEmergencyContacts none storeL = ⟨Except.error unauthenticatedMsg, false⟩
    ∧ exportUserData none storeL = ⟨Except.error unauthenticatedMsg, false⟩
    ∧ getChatHistory none storeL = ⟨Except.ok [], false⟩ :=
  ⟨rfl, rfl, rfl, rfl, rfl, rfl, rfl, rfl, rfl, rfl, rfl, rfl, rfl, rfl, rfl⟩
